import Mathlib

/-!
Verification of the Nature Remo AC integration (`climate.py`):
a shallow embedding of the mode translation tables, the appliance
state reducer (`NatureRemoAC._update`), the command builders
(`async_set_hvac_mode`, `async_set_temperature`, `async_turn_on`) and
the temperature-range derived properties (`min_temp`, `max_temp`,
`target_temperature_step`, `hvac_modes`).
-/

namespace NatureRemo

/-- The platform HVAC modes that appear in the translation tables
(`homeassistant.components.climate.const.HVACMode` restricted to the six
keys of `MODE_HA_TO_REMO`). -/
inductive HVACMode where
  | auto
  | fan_only
  | cool
  | dry
  | heat
  | off
deriving DecidableEq, Repr

/-- `MODE_HA_TO_REMO` from `climate.py`: platform mode to vendor string. -/
def MODE_HA_TO_REMO : HVACMode → String
  | .auto => "auto"
  | .fan_only => "blow"
  | .cool => "cool"
  | .dry => "dry"
  | .heat => "warm"
  | .off => "power-off"

/-- `MODE_REMO_TO_HA` from `climate.py`: vendor string to platform mode,
as a partial lookup (`none` models a `KeyError` on a missing key). -/
def MODE_REMO_TO_HA (s : String) : Option HVACMode :=
  if s = "auto" then some .auto
  else if s = "blow" then some .fan_only
  else if s = "cool" then some .cool
  else if s = "dry" then some .dry
  else if s = "warm" then some .heat
  else if s = "power-off" then some .off
  else none

/-- Python `float(s)` on the decimal strings this integration handles:
optional sign, digits, optional single decimal point, at least one digit;
`none` models a `ValueError`.  Exponent and special forms never occur in
the vendor data and are not modelled. -/
def parseFloat (s : String) : Option ℚ :=
  let cs := s.data
  let neg := cs.head? = some '-'
  let cs := match cs with
    | '-' :: r => r
    | '+' :: r => r
    | _ => cs
  let ip := cs.takeWhile Char.isDigit
  let rest := cs.dropWhile Char.isDigit
  let fp? : Option (List Char) :=
    match rest with
    | [] => some []
    | '.' :: f => if f.all Char.isDigit then some f else none
    | _ => none
  match fp? with
  | none => none
  | some fp =>
    if ip.isEmpty ∧ fp.isEmpty then none
    else
      let n : ℕ := (ip ++ fp).foldl (fun a c => a * 10 + (c.toNat - 48)) 0
      let q : ℚ := mkRat n (10 ^ fp.length)
      some (if neg then -q else q)

/-- The vendor `settings` object fields read by `_update`. -/
structure ACSettings where
  mode : String
  temp : String
  button : String
  vol : String
  dir : String
deriving DecidableEq, Repr

/-- A `newest_events` entry (e.g. the `"te"` temperature event); `val = none`
models a missing `"val"` key (a `KeyError` inside the guarded block). -/
structure TeEvent where
  val : Option String
deriving DecidableEq, Repr

/-- The linked device record; `newest_events = none` models a record with no
`"newest_events"` key. -/
structure Device where
  newest_events : Option (List (String × TeEvent))
deriving DecidableEq, Repr

/-- The mutable entity state of `NatureRemoAC` touched by `_update`.
`last_target_temperature` is the per-vendor-mode remembered raw temperature
string (the Python dict, initialised to `None` for every vendor mode). -/
structure ACState where
  hvac_mode : Option HVACMode
  current_temperature : Option ℚ
  target_temperature : Option ℚ
  remo_mode : Option String
  fan_mode : Option String
  swing_mode : Option String
  last_target_temperature : String → Option String

/-- The state set up in `NatureRemoAC.__init__` before the first `_update`. -/
def initState : ACState where
  hvac_mode := none
  current_temperature := none
  target_temperature := none
  remo_mode := none
  fan_mode := none
  swing_mode := none
  last_target_temperature := fun _ => none

/-- Association-list lookup, modelling `d["newest_events"]["te"]`. -/
def lookupEvent (k : String) (evs : List (String × TeEvent)) : Option TeEvent :=
  (evs.find? (fun p => p.1 = k)).map Prod.snd

/-- The telemetry part of `_update` (the `try`/`except` guarded block):
`float(device["newest_events"]["te"]["val"])` when every access succeeds,
otherwise the previous `current_temperature`; every `KeyError`, `ValueError`
and `TypeError` is caught, so this never fails. -/
def teUpdate (prev : Option ℚ) (device : Option Device) : Option ℚ :=
  match device with
  | none => prev
  | some d =>
    match d.newest_events with
    | none => prev
    | some evs =>
      match lookupEvent "te" evs with
      | none => prev
      | some e =>
        match e.val with
        | none => prev
        | some v =>
          match parseFloat v with
          | some q => some q
          | none => prev

/-- The field assignments of `NatureRemoAC._update` once the hvac-mode
lookup has produced platform mode `m` (factored out of `update` so each
field can be reasoned about directly). -/
def updateFields (s : ACState) (st : ACSettings) (device : Option Device)
    (m : HVACMode) : ACState :=
  let remo := st.mode
  let (target, last) :=
    match parseFloat st.temp with
    | some q =>
      (some q,
       fun k => if k = remo then some st.temp else s.last_target_temperature k)
    | none => ((none : Option ℚ), s.last_target_temperature)
  { hvac_mode := some m
    current_temperature := teUpdate s.current_temperature device
    target_temperature := target
    remo_mode := some remo
    fan_mode := if st.vol = "" then none else some st.vol
    swing_mode := if st.dir = "" then none else some st.dir
    last_target_temperature := last }

/-- `NatureRemoAC._update(ac_settings, device)`: the state reducer.
`Except.error ()` models the uncaught `KeyError` raised by
`MODE_REMO_TO_HA[self._remo_mode]` on an unknown vendor mode string
(every other fallible step of `_update` is inside a `try`). -/
def update (s : ACState) (st : ACSettings) (device : Option Device) :
    Except Unit ACState :=
  let hvac? : Option HVACMode :=
    if st.button = MODE_HA_TO_REMO HVACMode.off then some HVACMode.off
    else MODE_REMO_TO_HA st.mode
  match hvac? with
  | none => Except.error ()
  | some m => Except.ok (updateFields s st device m)

/-- The per-mode configured default temperatures (`CONF_COOL_TEMP`,
`CONF_HEAT_TEMP`), the two values put into `self._default_temp`. -/
structure ACConfig where
  cool_temp : String
  heat_temp : String
deriving DecidableEq, Repr

/-- `self._default_temp.get(hvac_mode)`: the dict has exactly the keys
`HVACMode.COOL` and `HVACMode.HEAT`. -/
def defaultTemp (c : ACConfig) : HVACMode → Option String
  | .cool => some c.cool_temp
  | .heat => some c.heat_temp
  | _ => none

/-- Python truthiness of an optional string: `None` and `""` are falsy. -/
def truthy : Option String → Bool
  | none => false
  | some s => s != ""

/-- The JSON body posted to `/appliances/{id}/aircon_settings`; `none`
fields are absent from the payload dict. -/
structure Payload where
  button : Option String := none
  operation_mode : Option String := none
  temperature : Option String := none
  air_volume : Option String := none
  air_direction : Option String := none
deriving DecidableEq, Repr

/-- `NatureRemoAC.async_set_hvac_mode(hvac_mode)`: the payload built and
posted for a target platform mode, given the remembered per-mode
temperatures and the configured defaults. -/
def setHvacModePayload (last : String → Option String) (cfg : ACConfig)
    (target : HVACMode) : Payload :=
  let mode := MODE_HA_TO_REMO target
  if mode = MODE_HA_TO_REMO HVACMode.off then
    { button := some mode }
  else
    let fromLast := last mode
    let fromDefault := defaultTemp cfg target
    let temp? : Option String :=
      if truthy fromLast then fromLast
      else if truthy fromDefault then fromDefault
      else none
    { operation_mode := some mode, temperature := temp? }

/-- Decimal digits of `rem / den` (with `rem < den`), most significant
first; mirrors how `repr` of a Python float prints a terminating decimal
fraction.  Fuel-bounded structural recursion (floats terminate well within
30 digits). -/
def fracDigitsStr : ℕ → ℕ → ℕ → String
  | 0, _, _ => ""
  | fuel + 1, rem, den =>
    if rem = 0 then ""
    else
      let r10 := rem * 10
      toString (r10 / den) ++ fracDigitsStr fuel (r10 % den) den

/-- The string interpolation in `async_set_temperature`: a whole number is
first cast to `int` so `f"{target_temp}"` prints without a decimal point;
otherwise the float prints its terminating decimal expansion. -/
def pyFormatFloat (q : ℚ) : String :=
  if q.den = 1 then toString q.num
  else
    let sign := if q.num < 0 then "-" else ""
    let n := q.num.natAbs
    sign ++ toString (n / q.den) ++ "." ++ fracDigitsStr 30 (n % q.den) q.den

/-- `NatureRemoAC.async_set_temperature(**kwargs)`: `none` input models the
caller passing no `ATTR_TEMPERATURE` (the early `return`, nothing posted);
the result is the posted payload otherwise. -/
def setTemperaturePayload (t : Option ℚ) : Option Payload :=
  match t with
  | none => none
  | some q => some { temperature := some (pyFormatFloat q) }

/-- `NatureRemoAC.async_turn_on`: the platform mode passed on to
`async_set_hvac_mode` (`none` result models the `KeyError` when the
remembered vendor mode is not in `MODE_REMO_TO_HA`). -/
def turnOnTarget (remo_mode : Option String) : Option HVACMode :=
  match remo_mode with
  | none => some HVACMode.cool
  | some m => MODE_REMO_TO_HA m

/-- `filter(None, temp_range)`: drops JSON `null` entries and empty
strings (the falsy values) from the vendor temperature range. -/
def filterTruthy (l : List (Option String)) : List String :=
  l.filterMap fun e =>
    match e with
    | none => none
    | some s => if s = "" then none else some s

/-- `NatureRemoAC._current_mode_temp_range`:
`list(map(float, filter(None, temp_range)))`; `none` models the
`ValueError` when a kept entry is not numeric. -/
def currentModeTempRange (l : List (Option String)) : Option (List ℚ) :=
  (filterTruthy l).mapM parseFloat

/-- `NatureRemoAC.min_temp`: `0` on an empty range, else Python `min`. -/
def min_temp (range : List ℚ) : ℚ :=
  match range with
  | [] => 0
  | h :: t => t.foldl (fun acc x => if x < acc then x else acc) h

/-- `NatureRemoAC.max_temp`: `0` on an empty range, else Python `max`. -/
def max_temp (range : List ℚ) : ℚ :=
  match range with
  | [] => 0
  | h :: t => t.foldl (fun acc x => if acc < x then x else acc) h

/-- Rational subtraction computed through `mkRat` on cross-multiplied
numerators (definitionally executable; proved equal to `a - b` in
`qsub_eq` below — Batteries marks `Rat.sub` irreducible, which blocks
kernel evaluation in witnesses). -/
def qsub (a b : ℚ) : ℚ :=
  mkRat (a.num * (b.den : ℤ) - b.num * (a.den : ℤ)) (a.den * b.den)

/-- Python round-half-to-even of a rational to an integer, on the
integer numerator/denominator: `f` is the floor, `rem/den` the
fractional part, ties (`2*rem = den`) go to the even neighbour. -/
def roundHalfEven (q : ℚ) : ℤ :=
  let f : ℤ := q.num.fdiv (q.den : ℤ)
  let rem : ℤ := q.num - f * (q.den : ℤ)
  if 2 * rem < (q.den : ℤ) then f
  else if (q.den : ℤ) < 2 * rem then f + 1
  else if f % 2 = 0 then f else f + 1

/-- Python `round(x, 1)`: round-half-to-even of `10 * x`, divided by 10
(`mkRat (10 * q.num) q.den` is `10 * q`). -/
def round1 (q : ℚ) : ℚ :=
  mkRat (roundHalfEven (mkRat (10 * q.num) q.den)) 10

/-- `NatureRemoAC.target_temperature_step` applied to the already parsed
current-mode temperature range; `qsub b a` is `temp_range[1] -
temp_range[0]`. -/
def target_temperature_step (range : List ℚ) : ℚ :=
  match range with
  | a :: b :: _ =>
    let step := round1 (qsub b a)
    if step = 1 ∨ step = mkRat 1 2 then step else 1
  | _ => 1

/-- `NatureRemoAC.hvac_modes`: translate the keys of the vendor-reported
`range.modes` mapping and append `HVACMode.OFF`; `none` models the
`KeyError` on a key outside `MODE_REMO_TO_HA`. -/
def hvac_modes (modeKeys : List String) : Option (List HVACMode) := do
  let ha ← modeKeys.mapM MODE_REMO_TO_HA
  pure (ha ++ [HVACMode.off])

section Lemmas

variable (s : ACState) (st : ACSettings) (d : Option Device)

lemma update_ok_of_button (hb : st.button = "power-off") :
    update s st d = Except.ok (updateFields s st d HVACMode.off) := by
  simp [update, MODE_HA_TO_REMO, hb]

lemma update_ok_of_mode {m : HVACMode} (hb : st.button ≠ "power-off")
    (hm : MODE_REMO_TO_HA st.mode = some m) :
    update s st d = Except.ok (updateFields s st d m) := by
  simp [update, MODE_HA_TO_REMO, hb, hm]

lemma update_error_of_unknown (hb : st.button ≠ "power-off")
    (hm : MODE_REMO_TO_HA st.mode = none) :
    update s st d = Except.error () := by
  simp [update, MODE_HA_TO_REMO, hb, hm]

lemma updateFields_hvac (m : HVACMode) :
    (updateFields s st d m).hvac_mode = some m := by
  simp only [updateFields]

lemma updateFields_remo (m : HVACMode) :
    (updateFields s st d m).remo_mode = some st.mode := by
  simp only [updateFields]

lemma updateFields_fan (m : HVACMode) :
    (updateFields s st d m).fan_mode =
      (if st.vol = "" then none else some st.vol) := by
  simp only [updateFields]

lemma updateFields_swing (m : HVACMode) :
    (updateFields s st d m).swing_mode =
      (if st.dir = "" then none else some st.dir) := by
  simp only [updateFields]

lemma updateFields_current (m : HVACMode) :
    (updateFields s st d m).current_temperature =
      teUpdate s.current_temperature d := by
  simp only [updateFields]

lemma updateFields_target (m : HVACMode) :
    (updateFields s st d m).target_temperature = parseFloat st.temp := by
  simp only [updateFields]
  cases parseFloat st.temp <;> rfl

lemma updateFields_last_of_parse {q : ℚ} (m : HVACMode)
    (hq : parseFloat st.temp = some q) :
    (updateFields s st d m).last_target_temperature =
      fun k => if k = st.mode then some st.temp
               else s.last_target_temperature k := by
  simp only [updateFields, hq]

lemma updateFields_last_of_fail (m : HVACMode)
    (hq : parseFloat st.temp = none) :
    (updateFields s st d m).last_target_temperature =
      s.last_target_temperature := by
  simp only [updateFields, hq]

lemma update_ok_cases
    (h : st.button = "power-off" ∨ (MODE_REMO_TO_HA st.mode).isSome) :
    ∃ m, update s st d = Except.ok (updateFields s st d m) := by
  by_cases hb : st.button = "power-off"
  · exact ⟨_, update_ok_of_button s st d hb⟩
  · rcases h with h | h
    · exact absurd h hb
    · obtain ⟨m, hm⟩ := Option.isSome_iff_exists.mp h
      exact ⟨m, update_ok_of_mode s st d hb hm⟩

end Lemmas

/-- C2: for every settings object (whose button/mode combination does not
hit the unrelated unknown-mode fault), `_update` sets `remo_mode` to
`settings.mode` unconditionally, sets `hvac_mode` to OFF exactly when
`settings.button = "power-off"` and otherwise to the inverse-table
translation of the mode, maps empty `vol`/`dir` strings to absent
`fan_mode`/`swing_mode` and non-empty ones through verbatim, and sets
`target_temperature` to the parse of `settings.temp`. -/
theorem update_core_fields (s : ACState) (st : ACSettings) (d : Option Device)
    (h : st.button = "power-off" ∨ (MODE_REMO_TO_HA st.mode).isSome) :
    ∃ s', update s st d = Except.ok s' ∧
      s'.remo_mode = some st.mode ∧
      s'.hvac_mode = (if st.button = "power-off" then some HVACMode.off
                      else MODE_REMO_TO_HA st.mode) ∧
      s'.fan_mode = (if st.vol = "" then none else some st.vol) ∧
      s'.swing_mode = (if st.dir = "" then none else some st.dir) ∧
      s'.target_temperature = parseFloat st.temp := by
  by_cases hb : st.button = "power-off"
  · refine ⟨_, update_ok_of_button s st d hb, updateFields_remo s st d _,
      ?_, updateFields_fan s st d _, updateFields_swing s st d _,
      updateFields_target s st d _⟩
    rw [updateFields_hvac]
    simp [hb]
  · rcases h with h | h
    · exact absurd h hb
    · obtain ⟨m, hm⟩ := Option.isSome_iff_exists.mp h
      refine ⟨_, update_ok_of_mode s st d hb hm, updateFields_remo s st d _,
        ?_, updateFields_fan s st d _, updateFields_swing s st d _,
        updateFields_target s st d _⟩
      rw [updateFields_hvac]
      simp [hb, hm]

/-- C2 witness: the settings object
`{mode: "warm", temp: "", button: "power-off", vol: "", dir: ""}` yields
`hvac_mode = OFF`, `remo_mode = "warm"`, absent target temperature and
absent fan mode. -/
theorem update_core_fields_witness :
    ∃ s', update initState ⟨"warm", "", "power-off", "", ""⟩ none =
        Except.ok s' ∧
      s'.remo_mode = some "warm" ∧ s'.hvac_mode = some HVACMode.off ∧
      s'.fan_mode = none ∧ s'.swing_mode = none ∧
      s'.target_temperature = none := by
  obtain ⟨s', h1, h2, h3, h4, h5, h6⟩ :=
    update_core_fields initState ⟨"warm", "", "power-off", "", ""⟩ none
      (Or.inl rfl)
  refine ⟨s', h1, h2, ?_, ?_, ?_, ?_⟩
  · rw [h3]; decide
  · rw [h4]; decide
  · rw [h5]; decide
  · rw [h6]; decide

/-- C3: when `settings.temp` parses, `_update` sets `target_temperature`
to the parsed value and stores the raw string under exactly the entry
keyed by `remo_mode`, leaving every other remembered temperature
unchanged; when the parse fails, `target_temperature` becomes absent, the
whole `last_target_temperature` mapping is unchanged, and the update
still completes. -/
theorem update_temperature_memory (s : ACState) (st : ACSettings)
    (d : Option Device)
    (h : st.button = "power-off" ∨ (MODE_REMO_TO_HA st.mode).isSome) :
    ∃ s', update s st d = Except.ok s' ∧
      (∀ q, parseFloat st.temp = some q →
        s'.target_temperature = some q ∧
        s'.last_target_temperature st.mode = some st.temp ∧
        ∀ k, k ≠ st.mode →
          s'.last_target_temperature k = s.last_target_temperature k) ∧
      (parseFloat st.temp = none →
        s'.target_temperature = none ∧
        s'.last_target_temperature = s.last_target_temperature) := by
  obtain ⟨m, hok⟩ := update_ok_cases s st d h
  refine ⟨_, hok, ?_, ?_⟩
  · intro q hq
    refine ⟨?_, ?_, ?_⟩
    · rw [updateFields_target]; exact hq
    · rw [updateFields_last_of_parse s st d m hq]; simp
    · intro k hk
      rw [updateFields_last_of_parse s st d m hq]
      simp [hk]
  · intro hq
    exact ⟨(updateFields_target s st d m).trans hq,
      updateFields_last_of_fail s st d m hq⟩

/-- C3 witness: settings
`{mode: "cool", temp: "20", button: "", vol: "auto", dir: "swing"}` on the
initial state parse successfully: the target becomes `20.0`, the raw
string `"20"` is remembered for `"cool"`, and `"warm"` stays absent. -/
theorem update_temperature_memory_witness :
    ∃ s', update initState ⟨"cool", "20", "", "auto", "swing"⟩ none =
        Except.ok s' ∧
      s'.target_temperature = some 20 ∧
      s'.last_target_temperature "cool" = some "20" ∧
      s'.last_target_temperature "warm" = none := by
  obtain ⟨s', hok, hsucc, _⟩ :=
    update_temperature_memory initState ⟨"cool", "20", "", "auto", "swing"⟩
      none (Or.inr (by decide))
  obtain ⟨ht, hl, hrest⟩ := hsucc 20 (by decide)
  refine ⟨s', hok, ht, hl, ?_⟩
  rw [hrest "warm" (by decide)]
  rfl

/-- C9: `_update` sets `current_temperature` to the parsed `"te"` event
value when the supplied device record is structurally complete and the
value parses; any structural absence or mismatch is swallowed, the
previous `current_temperature` is retained, and the update still
completes. -/
theorem telemetry_update_spec (s : ACState) (st : ACSettings)
    (d : Option Device)
    (h : st.button = "power-off" ∨ (MODE_REMO_TO_HA st.mode).isSome) :
    ∃ s', update s st d = Except.ok s' ∧
      (∀ dev evs e v q, d = some dev → dev.newest_events = some evs →
        lookupEvent "te" evs = some e → e.val = some v →
        parseFloat v = some q → s'.current_temperature = some q) ∧
      ((¬ ∃ dev evs e v q, d = some dev ∧ dev.newest_events = some evs ∧
          lookupEvent "te" evs = some e ∧ e.val = some v ∧
          parseFloat v = some q) →
        s'.current_temperature = s.current_temperature) := by
  obtain ⟨m, hok⟩ := update_ok_cases s st d h
  refine ⟨_, hok, ?_, ?_⟩
  · intro dev evs e v q hd hne hle hv hq
    rw [updateFields_current]
    subst hd
    simp [teUpdate, hne, hle, hv, hq]
  · intro hno
    rw [updateFields_current]
    rcases d with _ | dev
    · rfl
    rcases hne : dev.newest_events with _ | evs
    · simp [teUpdate, hne]
    rcases hle : lookupEvent "te" evs with _ | e
    · simp [teUpdate, hne, hle]
    rcases hv : e.val with _ | v
    · simp [teUpdate, hne, hle, hv]
    rcases hq : parseFloat v with _ | q
    · simp [teUpdate, hne, hle, hv, hq]
    · exact absurd ⟨dev, evs, e, v, q, rfl, hne, hle, hv, hq⟩ hno

/-- C9 witness: a device with a well-formed `"te"` event `val = "25.5"`
sets `current_temperature` to `25.5`. -/
theorem telemetry_update_spec_witness :
    ∃ s', update initState ⟨"cool", "20", "", "", ""⟩
        (some ⟨some [("te", ⟨some "25.5"⟩)]⟩) = Except.ok s' ∧
      s'.current_temperature = some (mkRat 51 2) := by
  obtain ⟨s', hok, hset, _⟩ :=
    telemetry_update_spec initState ⟨"cool", "20", "", "", ""⟩
      (some ⟨some [("te", ⟨some "25.5"⟩)]⟩) (Or.inr (by decide))
  exact ⟨s', hok,
    hset ⟨some [("te", ⟨some "25.5"⟩)]⟩ [("te", ⟨some "25.5"⟩)]
      ⟨some "25.5"⟩ "25.5" (mkRat 51 2) rfl rfl (by decide) rfl (by decide)⟩

lemma qsub_eq (a b : ℚ) : qsub a b = a - b := by
  have ha : ((a.den : ℚ)) ≠ 0 := Nat.cast_ne_zero.mpr a.den_nz
  have hb : ((b.den : ℚ)) ≠ 0 := Nat.cast_ne_zero.mpr b.den_nz
  have h1 : (a.num : ℚ) = a * (a.den : ℚ) := (div_eq_iff ha).mp (Rat.num_div_den a)
  have h2 : (b.num : ℚ) = b * (b.den : ℚ) := (div_eq_iff hb).mp (Rat.num_div_den b)
  have hne : ((a.den * b.den : ℕ) : ℚ) ≠ 0 := by
    push_cast
    exact mul_ne_zero ha hb
  rw [qsub, Rat.mkRat_eq_div, div_eq_iff hne]
  push_cast
  rw [h1, h2]
  ring

lemma MODE_HA_TO_REMO_ne_power_off {target : HVACMode}
    (h : target ≠ HVACMode.off) : MODE_HA_TO_REMO target ≠ "power-off" := by
  cases target <;> first
    | exact absurd rfl h
    | decide

lemma setHvacModePayload_not_off (last : String → Option String)
    (cfg : ACConfig) (target : HVACMode)
    (h : MODE_HA_TO_REMO target ≠ "power-off") :
    setHvacModePayload last cfg target =
      { operation_mode := some (MODE_HA_TO_REMO target)
        temperature :=
          if truthy (last (MODE_HA_TO_REMO target)) then
            last (MODE_HA_TO_REMO target)
          else if truthy (defaultTemp cfg target) then defaultTemp cfg target
          else none } := by
  have h' : MODE_HA_TO_REMO target ≠ MODE_HA_TO_REMO HVACMode.off := h
  simp only [setHvacModePayload]
  rw [if_neg h']

/-- C4: the set-HVAC-mode command builds `{button: "power-off"}` when the
target is OFF; otherwise it builds `{operation_mode: vendor_mode}` with a
`temperature` field taken first from the remembered per-mode temperature
when truthy, else from the configured default (which exists only for COOL
and HEAT) when truthy, else omitted. -/
theorem set_hvac_mode_payload_spec (last : String → Option String)
    (cfg : ACConfig) (target : HVACMode) :
    (target = HVACMode.off →
      setHvacModePayload last cfg target = { button := some "power-off" }) ∧
    (target ≠ HVACMode.off →
      (setHvacModePayload last cfg target).button = none ∧
      (setHvacModePayload last cfg target).operation_mode =
        some (MODE_HA_TO_REMO target) ∧
      (truthy (last (MODE_HA_TO_REMO target)) = true →
        (setHvacModePayload last cfg target).temperature =
          last (MODE_HA_TO_REMO target)) ∧
      (truthy (last (MODE_HA_TO_REMO target)) = false →
        truthy (defaultTemp cfg target) = true →
        (setHvacModePayload last cfg target).temperature =
          defaultTemp cfg target) ∧
      (truthy (last (MODE_HA_TO_REMO target)) = false →
        truthy (defaultTemp cfg target) = false →
        (setHvacModePayload last cfg target).temperature = none)) ∧
    (∀ t, t ≠ HVACMode.cool → t ≠ HVACMode.heat → defaultTemp cfg t = none) := by
  refine ⟨?_, ?_, ?_⟩
  · intro h
    subst h
    simp [setHvacModePayload, MODE_HA_TO_REMO]
  · intro hne
    have h := MODE_HA_TO_REMO_ne_power_off hne
    rw [setHvacModePayload_not_off last cfg target h]
    refine ⟨rfl, rfl, ?_, ?_, ?_⟩
    · intro h1; simp [h1]
    · intro h1 h2; simp [h1, h2]
    · intro h1 h2; simp [h1, h2]
  · intro t h1 h2
    cases t <;> simp_all [defaultTemp]

/-- C4 witness: with `"25"` remembered for vendor mode `"warm"`, targeting
HEAT sources the payload temperature from the remembered value. -/
theorem set_hvac_mode_payload_witness :
    (setHvacModePayload (fun k => if k = "warm" then some "25" else none)
      ⟨"26", "22"⟩ HVACMode.heat).temperature = some "25" := by
  have h :=
    (set_hvac_mode_payload_spec
      (fun k => if k = "warm" then some "25" else none)
      ⟨"26", "22"⟩ HVACMode.heat).2.1 (by decide)
  have h3 := h.2.2.1 (by decide)
  rw [h3]
  decide

/-- C5: the set-temperature command is a no-op when no value is supplied;
a whole-number value is formatted without a decimal point (`23.0` gives
`{temperature: "23"}`) and otherwise the fractional part is kept (`23.5`
gives `{temperature: "23.5"}`). -/
theorem set_temperature_payload_spec :
    setTemperaturePayload none = none ∧
    (∀ q : ℚ, q.den = 1 →
      setTemperaturePayload (some q) =
        some { temperature := some (toString q.num) }) ∧
    setTemperaturePayload (some 23) = some { temperature := some "23" } ∧
    setTemperaturePayload (some (mkRat 47 2)) =
      some { temperature := some "23.5" } := by
  refine ⟨rfl, ?_, by decide, by decide⟩
  intro q hq
  simp [setTemperaturePayload, pyFormatFloat, hq]

/-- C5 witness: the whole number `5.0` is formatted as the plain integer
string of its numerator. -/
theorem set_temperature_payload_witness :
    (5 : ℚ).den = 1 ∧
    setTemperaturePayload (some 5) =
      some { temperature := some (toString (5 : ℚ).num) } :=
  ⟨by decide, set_temperature_payload_spec.2.1 5 (by decide)⟩

/-- C6: the turn-on intent resolves to COOL when no vendor mode is
remembered, and otherwise to the inverse-table translation of the
remembered vendor mode (`"warm"` resolves to HEAT). -/
theorem turn_on_spec :
    turnOnTarget none = some HVACMode.cool ∧
    (∀ m h, MODE_REMO_TO_HA m = some h → turnOnTarget (some m) = some h) ∧
    turnOnTarget (some "warm") = some HVACMode.heat := by
  refine ⟨rfl, ?_, by decide⟩
  intro m h hm
  simp [turnOnTarget, hm]

/-- C6 witness: a remembered `"cool"` vendor mode resolves to COOL. -/
theorem turn_on_spec_witness :
    MODE_REMO_TO_HA "cool" = some HVACMode.cool ∧
    turnOnTarget (some "cool") = some HVACMode.cool :=
  ⟨by decide, turn_on_spec.2.1 "cool" HVACMode.cool (by decide)⟩

/-- C7: null/empty range entries are filtered before computing min, max
and step; min and max are 0 on an empty filtered range; with at least two
entries the step is `round(second - first, 1)` when that value is 1.0 or
0.5 and defaults to 1 otherwise; `["16", "", "18", "20"]` filters to
`[16.0, 18.0, 20.0]` whose derived step 2.0 is invalid, so the reported
step is 1. -/
theorem temperature_range_spec :
    currentModeTempRange [some "16", some "", some "18", some "20"] =
      some [16, 18, 20] ∧
    min_temp [] = 0 ∧ max_temp [] = 0 ∧
    (∀ (a b : ℚ) (rest : List ℚ),
      target_temperature_step (a :: b :: rest) =
        (if round1 (b - a) = 1 ∨ round1 (b - a) = mkRat 1 2
         then round1 (b - a) else 1)) ∧
    (∀ l : List ℚ, l.length < 2 → target_temperature_step l = 1) ∧
    target_temperature_step [16, 18, 20] = 1 := by
  refine ⟨by decide, rfl, rfl, ?_, ?_, by decide⟩
  · intro a b rest
    simp only [target_temperature_step]
    rw [qsub_eq]
  · intro l hl
    match l with
    | [] => rfl
    | [a] => rfl
    | a :: b :: t =>
      simp [List.length_cons] at hl
      omega

/-- C7 witness: a singleton filtered range reports the default step 1. -/
theorem temperature_range_spec_witness :
    ([] : List ℚ).length < 2 ∧ target_temperature_step [] = 1 :=
  ⟨by decide, temperature_range_spec.2.2.2.2.1 [] (by decide)⟩

/-- C8: every vendor mode string outside
`{auto, blow, cool, dry, warm, power-off}` is a lookup failure in the
translation table, and `_update` propagates it as a fault (the state
reducer fails rather than recovering) whenever the settings carry such a
mode without the power-off button. -/
theorem unknown_mode_fault (v : String)
    (h : v ≠ "auto" ∧ v ≠ "blow" ∧ v ≠ "cool" ∧ v ≠ "dry" ∧ v ≠ "warm" ∧
      v ≠ "power-off") :
    MODE_REMO_TO_HA v = none ∧
    ∀ (s : ACState) (st : ACSettings) (d : Option Device),
      st.mode = v → st.button ≠ "power-off" →
      update s st d = Except.error () := by
  obtain ⟨h1, h2, h3, h4, h5, h6⟩ := h
  have hnone : MODE_REMO_TO_HA v = none := by
    simp [h1, h2, h3, h4, h5, h6, MODE_REMO_TO_HA]
  refine ⟨hnone, ?_⟩
  intro s st d hm hb
  refine update_error_of_unknown s st d hb ?_
  rw [hm]
  exact hnone

/-- C8 witness: the platform-side string `"heat"` is not a vendor mode;
its lookup fails and `_update` faults on settings carrying it. -/
theorem unknown_mode_fault_witness :
    MODE_REMO_TO_HA "heat" = none ∧
    update initState ⟨"heat", "", "", "", ""⟩ none = Except.error () := by
  obtain ⟨h1, h2⟩ := unknown_mode_fault "heat" (by decide)
  exact ⟨h1, h2 initState ⟨"heat", "", "", "", ""⟩ none rfl (by decide)⟩

/-- C10: whenever every key of the vendor-reported `range.modes` mapping
translates, the exposed `hvac_modes` list is those translations with
platform OFF appended as the last element — OFF is offered even though
the vendor never lists it. -/
theorem hvac_modes_off_appended (keys : List String) (tr : List HVACMode)
    (h : keys.mapM MODE_REMO_TO_HA = some tr) :
    hvac_modes keys = some (tr ++ [HVACMode.off]) ∧
    HVACMode.off ∈ tr ++ [HVACMode.off] ∧
    (tr ++ [HVACMode.off]).getLast? = some HVACMode.off := by
  refine ⟨?_, ?_, ?_⟩
  · simp only [hvac_modes]
    rw [h]
    rfl
  · simp
  · simp [List.getLast?_concat]

/-- C10 witness: a vendor reporting modes `cool` and `warm` exposes
`[COOL, HEAT, OFF]`, with OFF last. -/
theorem hvac_modes_off_appended_witness :
    (["cool", "warm"].mapM MODE_REMO_TO_HA =
      some [HVACMode.cool, HVACMode.heat]) ∧
    hvac_modes ["cool", "warm"] =
      some [HVACMode.cool, HVACMode.heat, HVACMode.off] := by
  have h :=
    hvac_modes_off_appended ["cool", "warm"] [HVACMode.cool, HVACMode.heat]
      (by decide)
  exact ⟨by decide, by simpa using h.1⟩

/-- C1 counterexample: contrary to the claim, the vendor string
`"power-off"` IS a key of the vendor-to-platform reverse map
`MODE_REMO_TO_HA`, mapping to platform `OFF`. -/
theorem mode_table_power_off_counterexample :
    MODE_REMO_TO_HA "power-off" = some HVACMode.off ∧
    ¬ MODE_REMO_TO_HA "power-off" = none := by
  constructor
  · decide
  · decide

/-- C1 (amended): for each of the six platform HVAC modes — including
OFF — translating platform-to-vendor via `MODE_HA_TO_REMO` and back via
`MODE_REMO_TO_HA` yields the original platform mode; platform OFF maps to
the vendor string `"power-off"`, which is itself a key of the reverse map
(mapping back to OFF). -/
theorem mode_table_roundtrip_amended :
    (∀ m : HVACMode, MODE_REMO_TO_HA (MODE_HA_TO_REMO m) = some m) ∧
    MODE_HA_TO_REMO HVACMode.off = "power-off" := by
  constructor
  · intro m
    cases m <;> decide
  · rfl

end NatureRemo
